import Mathlib

/-!
Verification of the feliya attendance-analytics frontend and its
analytics/clustering engine specification.

The frontend sources embedded here are:
* `src/frontend/src/services/api.ts` — the `apiService` request builders;
* `src/frontend/src/stores/analytics.ts` — the Pinia analytics store;
* `src/frontend/src/components/PerformanceTable.vue` — table sorting and badges;
* `src/frontend/src/components/DateRangePicker.vue` — month-range shortcuts.

The backend analytics/clustering engine (feature extractor, dataset builder,
K-Means fit) is not part of the checked sources; where a claim concerns it,
the relevant operation is modelled from the specification and the definition
says so in its doc comment.
-/

set_option maxHeartbeats 1000000

namespace FeliyaAnalytics

/-- A query-parameter value: axios serialises both strings and numbers; the
`params` objects in `api.ts` only ever hold strings (dates) and naturals
(`limit`, `n_clusters`, `year`, `month`). -/
inductive QVal where
  | str (v : String)
  | nat (v : Nat)
deriving DecidableEq, Repr

/-- The `params` object passed to `api.get`, as an insertion-ordered
association list (JS object keys keep insertion order for these keys). -/
abbrev QueryParams := List (String × QVal)

/-- JS truthiness of an optional string argument: `undefined` and the empty
string are falsy, every other string is truthy (`if (dateFrom) ...`). -/
def truthyStr : Option String → Bool
  | none => false
  | some s => !(s == "")

/-- One `if (arg) params.key = arg` statement from `api.ts`: append the pair
to the params object exactly when the optional string is truthy. -/
def addIfTruthy (params : QueryParams) (key : String) (v : Option String) : QueryParams :=
  if truthyStr v then params ++ [(key, QVal.str (v.getD ""))] else params

/-- `apiService.getAnalyticsOverview(dateFrom?, dateTo?)`: starts from an
empty params object, then conditionally adds `date_from` and `date_to`. -/
def getAnalyticsOverview (dateFrom dateTo : Option String) : QueryParams :=
  addIfTruthy (addIfTruthy [] "date_from" dateFrom) "date_to" dateTo

/-- `apiService.getTeamPerformance(dateFrom?, dateTo?)`: same params shape as
the overview request. -/
def getTeamPerformance (dateFrom dateTo : Option String) : QueryParams :=
  addIfTruthy (addIfTruthy [] "date_from" dateFrom) "date_to" dateTo

/-- `apiService.getProductivityRanking(dateFrom?, dateTo?, limit = 10)`:
`limit` is always present (defaulted to 10 when the caller omits it), the two
date bounds are conditional. -/
def getProductivityRanking (dateFrom dateTo : Option String) (limit : Option Nat) :
    QueryParams :=
  addIfTruthy (addIfTruthy [("limit", QVal.nat (limit.getD 10))] "date_from" dateFrom)
    "date_to" dateTo

/-- `apiService.getDailyTrends(dateFrom?, dateTo?)`: same params shape as the
overview request. -/
def getDailyTrends (dateFrom dateTo : Option String) : QueryParams :=
  addIfTruthy (addIfTruthy [] "date_from" dateFrom) "date_to" dateTo

/-- `apiService.getQuickClusteringAnalysis(dateFrom?, dateTo?, nClusters = 3)`:
`n_clusters` is always present (defaulted to 3 when the caller omits it), the
two date bounds are conditional. -/
def getQuickClusteringAnalysis (dateFrom dateTo : Option String) (nClusters : Option Nat) :
    QueryParams :=
  addIfTruthy (addIfTruthy [("n_clusters", QVal.nat (nClusters.getD 3))] "date_from" dateFrom)
    "date_to" dateTo

/-- The store action `fetchClusteringAnalysis(from?, to?, clusters = 3)` from
`analytics.ts`: defaults `clusters` to 3 and always passes it on to
`apiService.getQuickClusteringAnalysis`; this is the request it issues. -/
def fetchClusteringAnalysisRequest (dateFrom dateTo : Option String)
    (clusters : Option Nat) : QueryParams :=
  getQuickClusteringAnalysis dateFrom dateTo (some (clusters.getD 3))

/-- The query value carried by an optional date bound, per the claimed
behaviour: a non-empty string is sent as-is, an absent or empty bound is
omitted. -/
def dateQVal : Option String → Option QVal
  | none => none
  | some s => if s = "" then none else some (QVal.str s)

theorem lookup_append_of_ne {l₁ l₂ : QueryParams} {k : String}
    (h : l₁.lookup k = none) : (l₁ ++ l₂).lookup k = l₂.lookup k := by
  induction l₁ with
  | nil => rfl
  | cons p t ih =>
      rcases p with ⟨a, v⟩
      by_cases hk : k == a
      · simp [List.lookup, hk] at h
      · simp only [List.cons_append, List.lookup, hk] at h ⊢
        exact ih h

theorem lookup_addIfTruthy_ne (params : QueryParams) (key k : String)
    (v : Option String) (h : (key == k) = false) :
    (addIfTruthy params key v).lookup k = params.lookup k := by
  unfold addIfTruthy
  split
  · induction params with
    | nil => simp [List.lookup, BEq.symm_false h]
    | cons p t ih =>
        rcases p with ⟨a, w⟩
        by_cases hk : k == a
        · simp [List.lookup, hk]
        · simp only [List.cons_append, List.lookup, hk]
          exact ih
  · rfl

theorem lookup_addIfTruthy_self (params : QueryParams) (key : String)
    (v : Option String) (h : params.lookup key = none) :
    (addIfTruthy params key v).lookup key = dateQVal v := by
  unfold addIfTruthy
  rcases v with _ | s
  · simp [truthyStr, dateQVal, h]
  · by_cases hs : s = ""
    · simp [truthyStr, dateQVal, hs, h]
    · have hb : (s == "") = false := by
        simpa using hs
      simp only [truthyStr, hb, Bool.not_false, if_true, dateQVal, hs, if_false,
        Option.getD_some]
      rw [lookup_append_of_ne h]
      simp [List.lookup]

/-- Claim C1: when the caller supplies no cluster count, both
`apiService.getQuickClusteringAnalysis` and the store action
`fetchClusteringAnalysis` issue their request with `n_clusters = 3`
(the default cluster count K is 3), for every choice of the optional
date bounds. -/
theorem default_nClusters_is_three (dateFrom dateTo : Option String) :
    (getQuickClusteringAnalysis dateFrom dateTo none).lookup "n_clusters"
        = some (QVal.nat 3) ∧
    (fetchClusteringAnalysisRequest dateFrom dateTo none).lookup "n_clusters"
        = some (QVal.nat 3) := by
  constructor
  · unfold getQuickClusteringAnalysis
    rw [lookup_addIfTruthy_ne _ _ _ _ (by decide),
      lookup_addIfTruthy_ne _ _ _ _ (by decide)]
    rfl
  · unfold fetchClusteringAnalysisRequest getQuickClusteringAnalysis
    rw [lookup_addIfTruthy_ne _ _ _ _ (by decide),
      lookup_addIfTruthy_ne _ _ _ _ (by decide)]
    rfl

/-- Claim C2: in every analytics/ML fetch function of `apiService`
(`getAnalyticsOverview`, `getTeamPerformance`, `getProductivityRanking`,
`getDailyTrends`, `getQuickClusteringAnalysis`) the query parameter
`date_from` is sent exactly when the `dateFrom` argument is a non-empty
string (and then carries that string), and likewise `date_to` for `dateTo`;
an absent or empty date bound is omitted from the request entirely. -/
theorem date_bounds_sent_iff_nonempty (dateFrom dateTo : Option String)
    (limit nClusters : Option Nat) :
    ((getAnalyticsOverview dateFrom dateTo).lookup "date_from" = dateQVal dateFrom ∧
      (getAnalyticsOverview dateFrom dateTo).lookup "date_to" = dateQVal dateTo) ∧
    ((getTeamPerformance dateFrom dateTo).lookup "date_from" = dateQVal dateFrom ∧
      (getTeamPerformance dateFrom dateTo).lookup "date_to" = dateQVal dateTo) ∧
    ((getProductivityRanking dateFrom dateTo limit).lookup "date_from" = dateQVal dateFrom ∧
      (getProductivityRanking dateFrom dateTo limit).lookup "date_to" = dateQVal dateTo) ∧
    ((getDailyTrends dateFrom dateTo).lookup "date_from" = dateQVal dateFrom ∧
      (getDailyTrends dateFrom dateTo).lookup "date_to" = dateQVal dateTo) ∧
    ((getQuickClusteringAnalysis dateFrom dateTo nClusters).lookup "date_from"
        = dateQVal dateFrom ∧
      (getQuickClusteringAnalysis dateFrom dateTo nClusters).lookup "date_to"
        = dateQVal dateTo) := by
  refine ⟨⟨?_, ?_⟩, ⟨?_, ?_⟩, ⟨?_, ?_⟩, ⟨?_, ?_⟩, ⟨?_, ?_⟩⟩ <;>
    first
    | (simp only [getAnalyticsOverview, getTeamPerformance, getProductivityRanking,
        getDailyTrends, getQuickClusteringAnalysis]
       rw [lookup_addIfTruthy_ne _ _ _ _ (by decide)]
       exact lookup_addIfTruthy_self _ _ _ rfl)
    | (simp only [getAnalyticsOverview, getTeamPerformance, getProductivityRanking,
        getDailyTrends, getQuickClusteringAnalysis]
       refine lookup_addIfTruthy_self _ _ _ ?_
       rw [lookup_addIfTruthy_ne _ _ _ _ (by decide)]
       simp [List.lookup])

/-! ### PerformanceTable.vue -/

/-- One row of the clustering response (`ClusteringResult` in `api.ts`):
JS numbers are modelled as rationals, the `features` record as an
association list. -/
structure ClusteringResult where
  user_id : String
  worker_id : String
  name : String
  cluster : Int
  cluster_label : String
  performance_score : ℚ
  features : List (String × ℚ)
deriving DecidableEq, Repr

/-- The value the PerformanceTable comparator reads for one employee under
the selected sort key: `performance_score` reads the top-level field, any
other key reads `a.features[sortBy] || 0` (a missing feature counts as 0). -/
def sortValue (key : String) (e : ClusteringResult) : ℚ :=
  if key = "performance_score" then e.performance_score
  else (e.features.lookup key).getD 0

/-- `sortedEmployees` from `PerformanceTable.vue`: copies the `employees`
prop (`[...props.employees]`) and sorts the copy descending by the selected
key's value (the JS comparator returns `bValue - aValue`). -/
def sortedEmployees (key : String) (employees : List ClusteringResult) :
    List ClusteringResult :=
  employees.mergeSort fun a b => sortValue key b ≤ sortValue key a

/-- Claim C6: for every employee list and every selected sort key,
`sortedEmployees` is a permutation of the input list — no row added, dropped
or modified. (Non-mutation of the input is inherent here: the component
sorts a spread-copy of the prop, embedded as a pure function of the list.) -/
theorem sortedEmployees_perm (key : String) (employees : List ClusteringResult) :
    (sortedEmployees key employees).Perm employees :=
  List.mergeSort_perm employees _

/-- `getClusterBadgeClass` from `PerformanceTable.vue`: the object lookup
`classes[clusterLabel]` with the `|| 'bg-gray-100 text-gray-800'` fallback. -/
def getClusterBadgeClass (clusterLabel : String) : String :=
  if clusterLabel = "High Performer" then "bg-green-100 text-green-800"
  else if clusterLabel = "Good Performer" then "bg-blue-100 text-blue-800"
  else if clusterLabel = "Average Performer" then "bg-yellow-100 text-yellow-800"
  else if clusterLabel = "Needs Improvement" then "bg-red-100 text-red-800"
  else "bg-gray-100 text-gray-800"

/-- Claim C5: `getClusterBadgeClass` is total on strings; each of the four
fixed labels gets its own badge class, the four classes are pairwise
distinct, and every other string gets the gray fallback class. -/
theorem clusterBadgeClass_total (s : String)
    (hs : s ∉ ["Needs Improvement", "Average Performer", "Good Performer",
      "High Performer"]) :
    getClusterBadgeClass "High Performer" = "bg-green-100 text-green-800" ∧
    getClusterBadgeClass "Good Performer" = "bg-blue-100 text-blue-800" ∧
    getClusterBadgeClass "Average Performer" = "bg-yellow-100 text-yellow-800" ∧
    getClusterBadgeClass "Needs Improvement" = "bg-red-100 text-red-800" ∧
    ["bg-green-100 text-green-800", "bg-blue-100 text-blue-800",
      "bg-yellow-100 text-yellow-800", "bg-red-100 text-red-800"].Nodup ∧
    getClusterBadgeClass s = "bg-gray-100 text-gray-800" := by
  simp only [List.mem_cons, List.not_mem_nil, or_false, not_or] at hs
  obtain ⟨h1, h2, h3, h4⟩ := hs
  refine ⟨rfl, rfl, rfl, rfl, by decide, ?_⟩
  simp [getClusterBadgeClass, h1, h2, h3, h4]

/-- Witness for C5 at the concrete unknown label "Cluster 5". -/
theorem clusterBadgeClass_total_witness :
    getClusterBadgeClass "High Performer" = "bg-green-100 text-green-800" ∧
    getClusterBadgeClass "Good Performer" = "bg-blue-100 text-blue-800" ∧
    getClusterBadgeClass "Average Performer" = "bg-yellow-100 text-yellow-800" ∧
    getClusterBadgeClass "Needs Improvement" = "bg-red-100 text-red-800" ∧
    ["bg-green-100 text-green-800", "bg-blue-100 text-blue-800",
      "bg-yellow-100 text-yellow-800", "bg-red-100 text-red-800"].Nodup ∧
    getClusterBadgeClass "Cluster 5" = "bg-gray-100 text-gray-800" :=
  clusterBadgeClass_total "Cluster 5" (by decide)

/-! ### analytics.ts store -/

/-- `AnalyticsOverview` payload from `api.ts`. -/
structure AnalyticsOverview where
  total_workers : Nat
  active_workers : Nat
  total_attendance_records : Nat
  average_daily_hours : ℚ
  total_work_hours : ℚ
deriving DecidableEq, Repr

/-- The `performance_metrics` record of a `TeamPerformance` payload. -/
structure PerformanceMetrics where
  total_work_hours : ℚ
  average_daily_hours : ℚ
  attendance_rate : ℚ
  overtime_ratio : ℚ
  punctuality_score : ℚ
  consistency_score : ℚ
  productivity_score : ℚ
deriving DecidableEq, Repr

/-- `TeamPerformance` payload from `api.ts`. -/
structure TeamPerformance where
  user_id : String
  name : String
  worker_id : String
  email : String
  performance_metrics : PerformanceMetrics
deriving DecidableEq, Repr

/-- One element of `daily_trends` in the `DailyTrendsResponse` payload. -/
structure DailyTrend where
  date : String
  total_hours : ℚ
  total_overtime : ℚ
  unique_workers : Nat
  average_hours_per_worker : ℚ
deriving DecidableEq, Repr

/-- The `summary` record of the `DailyTrendsResponse` payload. -/
structure DailyTrendsSummary where
  total_days : Nat
  average_daily_workers : ℚ
  average_daily_hours : ℚ
deriving DecidableEq, Repr

/-- `DailyTrendsResponse` payload from `api.ts`. -/
structure DailyTrendsResponse where
  daily_trends : List DailyTrend
  summary : DailyTrendsSummary
deriving DecidableEq, Repr

/-- `ClusteringResponse` payload from `api.ts`: the clustering rows plus the
fit metadata stored by the analytics store. -/
structure ClusteringResponse where
  results : List ClusteringResult
  cluster_centers : List (String × List ℚ)
  feature_names : List String
  total_users : Nat
  model_accuracy : ℚ
deriving DecidableEq, Repr

/-- The mutable state of the Pinia analytics store (`analytics.ts`): the
`ref`s declared at the top of `useAnalyticsStore`. -/
structure StoreState where
  loading : Bool
  error : Option String
  overview : Option AnalyticsOverview
  teamPerformance : List TeamPerformance
  clusteringResults : Option ClusteringResponse
  dailyTrends : Option DailyTrendsResponse
  productivityRanking : List (TeamPerformance × Nat)
  dateFrom : String
  dateTo : String
deriving DecidableEq, Repr

/-- Store action `fetchOverview`: sets `loading = true` and `error = null`,
awaits the API call (its outcome is the `result` argument: `.ok` data or a
thrown `.error`), stores the data on success or sets the error message in
the `catch`, and clears `loading` in the `finally` block. -/
def fetchOverview (s : StoreState) (result : Except String AnalyticsOverview) :
    StoreState :=
  let s₁ := { s with loading := true, error := none }
  let s₂ := match result with
    | .ok d => { s₁ with overview := some d }
    | .error _ => { s₁ with error := some "Failed to fetch analytics overview" }
  { s₂ with loading := false }

/-- Store action `fetchTeamPerformance`, same try/catch/finally shape. -/
def fetchTeamPerformance (s : StoreState)
    (result : Except String (List TeamPerformance)) : StoreState :=
  let s₁ := { s with loading := true, error := none }
  let s₂ := match result with
    | .ok d => { s₁ with teamPerformance := d }
    | .error _ => { s₁ with error := some "Failed to fetch team performance" }
  { s₂ with loading := false }

/-- Store action `fetchClusteringAnalysis`, same try/catch/finally shape. -/
def fetchClusteringAnalysis (s : StoreState)
    (result : Except String ClusteringResponse) : StoreState :=
  let s₁ := { s with loading := true, error := none }
  let s₂ := match result with
    | .ok d => { s₁ with clusteringResults := some d }
    | .error _ => { s₁ with error := some "Failed to fetch clustering analysis" }
  { s₂ with loading := false }

/-- Store action `fetchDailyTrends`, same try/catch/finally shape. -/
def fetchDailyTrends (s : StoreState)
    (result : Except String DailyTrendsResponse) : StoreState :=
  let s₁ := { s with loading := true, error := none }
  let s₂ := match result with
    | .ok d => { s₁ with dailyTrends := some d }
    | .error _ => { s₁ with error := some "Failed to fetch daily trends" }
  { s₂ with loading := false }

/-- Store action `fetchProductivityRanking`, same try/catch/finally shape. -/
def fetchProductivityRanking (s : StoreState)
    (result : Except String (List (TeamPerformance × Nat))) : StoreState :=
  let s₁ := { s with loading := true, error := none }
  let s₂ := match result with
    | .ok d => { s₁ with productivityRanking := d }
    | .error _ => { s₁ with error := some "Failed to fetch productivity ranking" }
  { s₂ with loading := false }

/-- Claim C8: for every analytics-store fetch action, a thrown API call
leaves that action's previously stored data unchanged and sets `error` to a
non-null message, and every completed call — success or failure — leaves
`loading = false`. -/
theorem store_actions_error_safe (s : StoreState) (e : String)
    (r₁ : Except String AnalyticsOverview)
    (r₂ : Except String (List TeamPerformance))
    (r₃ : Except String ClusteringResponse)
    (r₄ : Except String DailyTrendsResponse)
    (r₅ : Except String (List (TeamPerformance × Nat))) :
    ((fetchOverview s (.error e)).overview = s.overview ∧
      (fetchOverview s (.error e)).error.isSome = true ∧
      (fetchOverview s r₁).loading = false) ∧
    ((fetchTeamPerformance s (.error e)).teamPerformance = s.teamPerformance ∧
      (fetchTeamPerformance s (.error e)).error.isSome = true ∧
      (fetchTeamPerformance s r₂).loading = false) ∧
    ((fetchClusteringAnalysis s (.error e)).clusteringResults = s.clusteringResults ∧
      (fetchClusteringAnalysis s (.error e)).error.isSome = true ∧
      (fetchClusteringAnalysis s r₃).loading = false) ∧
    ((fetchDailyTrends s (.error e)).dailyTrends = s.dailyTrends ∧
      (fetchDailyTrends s (.error e)).error.isSome = true ∧
      (fetchDailyTrends s r₄).loading = false) ∧
    ((fetchProductivityRanking s (.error e)).productivityRanking
        = s.productivityRanking ∧
      (fetchProductivityRanking s (.error e)).error.isSome = true ∧
      (fetchProductivityRanking s r₅).loading = false) := by
  exact ⟨⟨rfl, rfl, rfl⟩, ⟨rfl, rfl, rfl⟩, ⟨rfl, rfl, rfl⟩, ⟨rfl, rfl, rfl⟩,
    ⟨rfl, rfl, rfl⟩⟩

/-! ### Store getters: topPerformers and clusterDistribution -/

/-- `topPerformers` computed getter from `analytics.ts`: `[]` when no
clustering response is stored, otherwise a spread-copy of `results` sorted
descending by `performance_score` and truncated to the first five. -/
def topPerformers : Option ClusteringResponse → List ClusteringResult
  | none => []
  | some resp =>
      (List.mergeSort resp.results fun a b =>
        decide (b.performance_score ≤ a.performance_score)).take 5

/-- Claim C9: for every stored clustering response, `topPerformers` has
length `min 5 results.length`, draws its elements from `results`, and is
sorted in non-increasing order of `performance_score`. (The getter sorts a
spread-copy, embedded as a pure function, so the stored array is not
mutated.) -/
theorem topPerformers_spec (resp : ClusteringResponse) :
    (topPerformers (some resp)).length = min 5 resp.results.length ∧
    topPerformers (some resp) ⊆ resp.results ∧
    (topPerformers (some resp)).Pairwise
      (fun a b => b.performance_score ≤ a.performance_score) := by
  refine ⟨?_, ?_, ?_⟩
  · simp [topPerformers, List.length_take, List.length_mergeSort]
  · intro x hx
    simp only [topPerformers] at hx
    have hx2 := (List.take_sublist 5 _).subset hx
    exact (List.mergeSort_perm resp.results _).subset hx2
  · have htrans : ∀ a b c : ClusteringResult,
        decide (b.performance_score ≤ a.performance_score) = true →
        decide (c.performance_score ≤ b.performance_score) = true →
        decide (c.performance_score ≤ a.performance_score) = true := by
      intro a b c h1 h2
      simp only [decide_eq_true_eq] at h1 h2 ⊢
      exact le_trans h2 h1
    have htotal : ∀ a b : ClusteringResult,
        (decide (b.performance_score ≤ a.performance_score) ||
          decide (a.performance_score ≤ b.performance_score)) = true := by
      intro a b
      simp only [Bool.or_eq_true, decide_eq_true_eq]
      exact le_total _ _
    have hs := List.sorted_mergeSort htrans htotal resp.results
    exact (List.Pairwise.sublist (List.take_sublist 5 _) hs).imp
      fun h => of_decide_eq_true h

/-- Witness clustering response for the C9 statement. -/
def wRespNine : ClusteringResponse where
  results :=
    [{ user_id := "u1", worker_id := "W1", name := "One", cluster := 0,
       cluster_label := "High Performer", performance_score := 80,
       features := [("attendance_rate", 95)] },
     { user_id := "u2", worker_id := "W2", name := "Two", cluster := 1,
       cluster_label := "Average Performer", performance_score := 60,
       features := [("attendance_rate", 70)] },
     { user_id := "u3", worker_id := "W3", name := "Three", cluster := 1,
       cluster_label := "Average Performer", performance_score := 65,
       features := [] }]
  cluster_centers := []
  feature_names := ["attendance_rate"]
  total_users := 3
  model_accuracy := 7/10

/-- Witness for C9 at a concrete three-row clustering response. -/
theorem topPerformers_spec_witness :
    (topPerformers (some wRespNine)).length = min 5 wRespNine.results.length ∧
    topPerformers (some wRespNine) ⊆ wRespNine.results ∧
    (topPerformers (some wRespNine)).Pairwise
      (fun a b => b.performance_score ≤ a.performance_score) :=
  topPerformers_spec wRespNine

/-- Insert a value into an accumulator list unless already present: the
effect one `distribution[label] = (distribution[label] || 0) + 1` step has
on the key set of the JS record (keys keep first-insertion order). -/
def insertNew {α : Type} [DecidableEq α] (acc : List α) (x : α) : List α :=
  if x ∈ acc then acc else acc ++ [x]

/-- The distinct values of a list in order of first occurrence: the key set
of the JS record built by the `forEach` loop in `clusterDistribution`. -/
def distinctsIn {α : Type} [DecidableEq α] (l : List α) : List α :=
  l.foldl insertNew []

theorem mem_insertNew {α : Type} [DecidableEq α] {acc : List α} {x y : α} :
    y ∈ insertNew acc x ↔ y ∈ acc ∨ y = x := by
  by_cases hx : x ∈ acc
  · simp only [insertNew, if_pos hx]
    exact ⟨Or.inl, fun h => h.elim id fun he => he ▸ hx⟩
  · simp [insertNew, if_neg hx]

theorem nodup_insertNew {α : Type} [DecidableEq α] {acc : List α} (x : α)
    (h : acc.Nodup) : (insertNew acc x).Nodup := by
  by_cases hx : x ∈ acc
  · simpa [insertNew, if_pos hx] using h
  · simp [insertNew, if_neg hx, List.nodup_append, h, hx]

theorem mem_foldl_insertNew {α : Type} [DecidableEq α] (l : List α) :
    ∀ (acc : List α) (y : α), y ∈ l.foldl insertNew acc ↔ y ∈ acc ∨ y ∈ l := by
  induction l with
  | nil => simp
  | cons a t ih =>
      intro acc y
      simp only [List.foldl_cons, ih, mem_insertNew, List.mem_cons]
      tauto

theorem nodup_foldl_insertNew {α : Type} [DecidableEq α] (l : List α) :
    ∀ acc : List α, acc.Nodup → (l.foldl insertNew acc).Nodup := by
  induction l with
  | nil => exact fun acc h => h
  | cons a t ih => exact fun acc h => ih _ (nodup_insertNew a h)

theorem mem_distinctsIn {α : Type} [DecidableEq α] {l : List α} {y : α} :
    y ∈ distinctsIn l ↔ y ∈ l := by
  unfold distinctsIn
  rw [mem_foldl_insertNew]
  simp

theorem nodup_distinctsIn {α : Type} [DecidableEq α] (l : List α) :
    (distinctsIn l).Nodup :=
  nodup_foldl_insertNew l [] List.nodup_nil

theorem distinctsIn_perm_dedup {α : Type} [DecidableEq α] (l : List α) :
    (distinctsIn l).Perm l.dedup := by
  rw [List.perm_ext_iff_of_nodup (nodup_distinctsIn l) l.nodup_dedup]
  intro a
  rw [mem_distinctsIn, List.mem_dedup]

theorem sum_counts_distinctsIn {α : Type} [DecidableEq α] (l : List α) :
    ((distinctsIn l).map fun a => l.count a).sum = l.length := by
  have h := (distinctsIn_perm_dedup l).map fun a => l.count a
  rw [h.sum_eq, List.sum_map_count_dedup_eq_length]

/-- The per-label tally the `forEach` loop accumulates: how many clustering
rows carry exactly this `cluster_label`. -/
def labelCount (results : List ClusteringResult) (label : String) : Nat :=
  results.countP fun r => r.cluster_label == label

/-- One entry of the `clusterDistribution` getter's output
(`{ label, count, percentage }`). -/
structure ClusterDistEntry where
  label : String
  count : Nat
  percentage : ℚ
deriving DecidableEq, Repr

/-- `clusterDistribution` computed getter from `analytics.ts`: `[]` when no
clustering response is stored; otherwise one entry per distinct
`cluster_label` (in first-occurrence order, as `Object.entries` of the
accumulated record), with the label's tally and
`(count / total_users) * 100`. -/
def clusterDistribution : Option ClusteringResponse → List ClusterDistEntry
  | none => []
  | some resp =>
      (distinctsIn (resp.results.map ClusteringResult.cluster_label)).map fun label =>
        { label := label
          count := labelCount resp.results label
          percentage := (labelCount resp.results label : ℚ) / resp.total_users * 100 }

theorem sum_map_natCast {α : Type} (l : List α) (f : α → ℕ) :
    (l.map fun a => ((f a : ℚ))).sum = ((l.map fun a => f a).sum : ℚ) := by
  induction l with
  | nil => simp
  | cons a t ih => simp [ih]

theorem labelCount_eq_count (results : List ClusteringResult) (label : String) :
    labelCount results label
      = (results.map ClusteringResult.cluster_label).count label := by
  rw [labelCount, List.count, List.countP_map]
  exact List.countP_congr fun r _ => by simp [Function.comp]

theorem labelCount_eq_length_filter (results : List ClusteringResult)
    (label : String) :
    labelCount results label
      = (results.filter fun r => r.cluster_label = label).length := by
  rw [labelCount, List.countP_eq_length_filter]
  congr 1

/-- Claim C10: for every stored clustering response, `clusterDistribution`
has one entry per distinct `cluster_label` of `results` (no duplicates, and
exactly the labels occurring in `results`); each entry's `count` is the
number of results bearing that label, so the counts sum to
`results.length`; each entry's `percentage` is `count / total_users * 100`;
and consequently the percentages sum to 100 only when `total_users` equals
`results.length`. -/
theorem clusterDistribution_spec (resp : ClusteringResponse) :
    ((clusterDistribution (some resp)).map ClusterDistEntry.label).Nodup ∧
    (∀ l, l ∈ (clusterDistribution (some resp)).map ClusterDistEntry.label ↔
      l ∈ resp.results.map ClusteringResult.cluster_label) ∧
    (∀ e ∈ clusterDistribution (some resp),
      e.count = (resp.results.filter fun r => r.cluster_label = e.label).length ∧
      e.percentage = (e.count : ℚ) / resp.total_users * 100) ∧
    ((clusterDistribution (some resp)).map ClusterDistEntry.count).sum
      = resp.results.length ∧
    (((clusterDistribution (some resp)).map ClusterDistEntry.percentage).sum = 100 →
      resp.total_users = resp.results.length) := by
  have hmaplabel : (clusterDistribution (some resp)).map ClusterDistEntry.label
      = distinctsIn (resp.results.map ClusteringResult.cluster_label) := by
    simp only [clusterDistribution, List.map_map]
    exact List.map_id'' (fun _ => rfl) _
  have hmapcount : (clusterDistribution (some resp)).map ClusterDistEntry.count
      = (distinctsIn (resp.results.map ClusteringResult.cluster_label)).map
          fun label => labelCount resp.results label := by
    simp only [clusterDistribution, List.map_map]
    exact List.map_congr_left fun label _ => rfl
  have hcounts : ((distinctsIn (resp.results.map ClusteringResult.cluster_label)).map
        fun label => labelCount resp.results label).sum = resp.results.length := by
    have hc : (distinctsIn (resp.results.map ClusteringResult.cluster_label)).map
          (fun label => labelCount resp.results label)
        = (distinctsIn (resp.results.map ClusteringResult.cluster_label)).map
            fun label => (resp.results.map ClusteringResult.cluster_label).count label :=
      List.map_congr_left fun label _ => labelCount_eq_count _ _
    rw [hc, sum_counts_distinctsIn, List.length_map]
  have hcountsum :
      ((clusterDistribution (some resp)).map ClusterDistEntry.count).sum
        = resp.results.length := by
    rw [hmapcount, hcounts]
  refine ⟨?_, ?_, ?_, hcountsum, ?_⟩
  · rw [hmaplabel]
    exact nodup_distinctsIn _
  · intro l
    rw [hmaplabel, mem_distinctsIn]
  · intro e he
    obtain ⟨label, _, rfl⟩ := List.mem_map.1 he
    exact ⟨labelCount_eq_length_filter _ _, rfl⟩
  · intro hsum
    have hpct : ((clusterDistribution (some resp)).map ClusterDistEntry.percentage).sum
        = (resp.results.length : ℚ) * (100 / resp.total_users) := by
      have h1 : (clusterDistribution (some resp)).map ClusterDistEntry.percentage
          = (distinctsIn (resp.results.map ClusteringResult.cluster_label)).map
              fun label => ((labelCount resp.results label : ℚ))
                * (100 / resp.total_users) := by
        simp only [clusterDistribution, List.map_map]
        refine List.map_congr_left fun label _ => ?_
        simp only [Function.comp_apply]
        rw [div_mul_eq_mul_div, mul_div_assoc]
      rw [h1, List.sum_map_mul_right, sum_map_natCast, hcounts]
    rw [hpct] at hsum
    by_cases hT : (resp.total_users : ℚ) = 0
    · rw [hT] at hsum
      norm_num at hsum
    · have h2 : (resp.results.length : ℚ) = resp.total_users := by
        field_simp at hsum
        linarith
      exact (Nat.cast_inj.1 h2).symm

/-- Witness clustering response for the C10 statement. -/
def wRespTen : ClusteringResponse where
  results :=
    [{ user_id := "u1", worker_id := "W1", name := "One", cluster := 0,
       cluster_label := "High Performer", performance_score := 80,
       features := [] },
     { user_id := "u2", worker_id := "W2", name := "Two", cluster := 1,
       cluster_label := "Needs Improvement", performance_score := 30,
       features := [] }]
  cluster_centers := []
  feature_names := []
  total_users := 2
  model_accuracy := 1/2

/-- Witness for C10 at a concrete two-row clustering response. -/
theorem clusterDistribution_spec_witness :
    ((clusterDistribution (some wRespTen)).map ClusterDistEntry.label).Nodup ∧
    (∀ l, l ∈ (clusterDistribution (some wRespTen)).map ClusterDistEntry.label ↔
      l ∈ wRespTen.results.map ClusteringResult.cluster_label) ∧
    (∀ e ∈ clusterDistribution (some wRespTen),
      e.count = (wRespTen.results.filter fun r => r.cluster_label = e.label).length ∧
      e.percentage = (e.count : ℚ) / wRespTen.total_users * 100) ∧
    ((clusterDistribution (some wRespTen)).map ClusterDistEntry.count).sum
      = wRespTen.results.length ∧
    (((clusterDistribution (some wRespTen)).map ClusterDistEntry.percentage).sum = 100 →
      wRespTen.total_users = wRespTen.results.length) :=
  clusterDistribution_spec wRespTen

/-! ### DateRangePicker.vue: month shortcuts and JS Date semantics

`setCurrentMonth` builds `new Date(y, m, 1)` and `new Date(y, m + 1, 0)` —
local-midnight instants — and renders them with
`toISOString().split('T')[0]`, which formats the instant in UTC. The
embedding below models the proleptic Gregorian calendar as days since the
Unix epoch and a fixed timezone offset (minutes east of UTC) for the
runtime's locale. -/

/-- Days since 1970-01-01 of the Gregorian date `y-m-d` (`m` in 1..12),
computed with the standard civil-calendar algorithm using floor division. -/
def daysFromCivil (y m d : Int) : Int :=
  let y2 := if m ≤ 2 then y - 1 else y
  let era := Int.fdiv y2 400
  let yoe := y2 - era * 400
  let mp := Int.emod (m + 9) 12
  let doy := Int.fdiv (153 * mp + 2) 5 + d - 1
  let doe := yoe * 365 + Int.fdiv yoe 4 - Int.fdiv yoe 100 + doy
  era * 146097 + doe - 719468

/-- Inverse of `daysFromCivil`: the Gregorian `(year, month, day)` of a
days-since-epoch count. -/
def civilFromDays (z : Int) : Int × Int × Int :=
  let z2 := z + 719468
  let era := Int.fdiv z2 146097
  let doe := z2 - era * 146097
  let yoe := Int.fdiv (doe - Int.fdiv doe 1460 + Int.fdiv doe 36524
    - Int.fdiv doe 146096) 365
  let y := yoe + era * 400
  let doy := doe - (365 * yoe + Int.fdiv yoe 4 - Int.fdiv yoe 100)
  let mp := Int.fdiv (5 * doy + 2) 153
  let d := doy - Int.fdiv (153 * mp + 2) 5 + 1
  let m := mp + (if mp < 10 then 3 else -9)
  (y + (if m ≤ 2 then 1 else 0), m, d)

/-- Zero-padded two-digit rendering of a month or day number. -/
def pad2 (n : Int) : String := if n < 10 then "0" ++ toString n else toString n

/-- The `YYYY-MM-DD` rendering of a days-since-epoch count: the date part of
`Date.prototype.toISOString`. -/
def isoDate (z : Int) : String :=
  let c := civilFromDays z
  toString c.1 ++ "-" ++ pad2 c.2.1 ++ "-" ++ pad2 c.2.2

/-- The local calendar day denoted by `new Date(year, monthIndex, day)`:
JS months are 0-based and both month and day overflow/underflow normalise
(e.g. day 0 is the last day of the previous month), which floor
division/modulus and day-offset arithmetic reproduce. -/
def jsLocalDateDays (year monthIndex day : Int) : Int :=
  daysFromCivil (year + Int.fdiv monthIndex 12) (Int.emod monthIndex 12 + 1) 1
    + (day - 1)

/-- `toISOString().split('T')[0]` applied to a local-midnight `Date`: the
instant is local midnight of `localDays`, i.e. UTC epoch-minutes
`localDays * 1440 - offsetEast`, and the ISO string shows its UTC calendar
date. `offsetEast` is the runtime timezone's offset in minutes east of UTC
(Asia/Jakarta = +420, New York (winter) = -300, UTC = 0). -/
def toISODateOfLocalMidnight (localDays offsetEast : Int) : String :=
  isoDate (Int.fdiv (localDays * 1440 - offsetEast) 1440)

/-- `setCurrentMonth` from `DateRangePicker.vue`, run when "This Month" is
clicked with the current local date in `(nowYear, nowMonthIndex)`: the pair
`(dateFrom, dateTo)` it emits. -/
def setCurrentMonthEmits (nowYear nowMonthIndex offsetEast : Int) : String × String :=
  (toISODateOfLocalMidnight (jsLocalDateDays nowYear nowMonthIndex 1) offsetEast,
   toISODateOfLocalMidnight (jsLocalDateDays nowYear (nowMonthIndex + 1) 0) offsetEast)

/-- `setLastMonth` from `DateRangePicker.vue`: the pair `(dateFrom, dateTo)`
it emits for the previous month. -/
def setLastMonthEmits (nowYear nowMonthIndex offsetEast : Int) : String × String :=
  (toISODateOfLocalMidnight (jsLocalDateDays nowYear (nowMonthIndex - 1) 1) offsetEast,
   toISODateOfLocalMidnight (jsLocalDateDays nowYear nowMonthIndex 0) offsetEast)

/-- Claim C7, evaluated at a failing input: the claim says "This Month"
emits the ISO dates of the first and last day of the current month, but
with the runtime in a UTC+7 timezone (offset 420 minutes east, e.g.
Asia/Jakarta) during October 2026 (`nowMonthIndex = 9`), `setCurrentMonth`
emits `("2026-09-30", "2026-10-30")` instead of the claimed
`("2026-10-01", "2026-10-31")`, and `setLastMonth` emits
`("2026-08-31", "2026-09-29")` instead of `("2026-09-01", "2026-09-30")`:
`new Date(y, m, d)` denotes local midnight while `toISOString()` renders
UTC, shifting every emitted date one day back east of UTC. At offset 0 the
claimed dates are emitted. -/
theorem setCurrentMonth_timezone_bug :
    setCurrentMonthEmits 2026 9 420 = ("2026-09-30", "2026-10-30") ∧
    setCurrentMonthEmits 2026 9 420 ≠ ("2026-10-01", "2026-10-31") ∧
    setLastMonthEmits 2026 9 420 = ("2026-08-31", "2026-09-29") ∧
    setLastMonthEmits 2026 9 420 ≠ ("2026-09-01", "2026-09-30") ∧
    setCurrentMonthEmits 2026 9 0 = ("2026-10-01", "2026-10-31") ∧
    setLastMonthEmits 2026 9 0 = ("2026-09-01", "2026-09-30") := by
  refine ⟨by decide, by decide, by decide, by decide, by decide, by decide⟩

/-! ### The analytics/clustering engine, modelled from the specification

The backend that implements the Feature Extractor, Dataset Builder and
Clustering Model is not among the checked sources (only the frontend is),
so the definitions in this section are modelled from spec §3, §4.1–§4.3 and
§7 and say so in their doc comments. -/

/-- Modelled from the spec: one approved attendance record as the Feature
Extractor consumes it (§3 AttendanceRecord, missing backend): the calendar
date (as days since epoch), worked and overtime minutes, whether the
clock-in was at/before the punctuality threshold, the work-description
length, and whether a clock-out exists (§4.1: a record in progress is
excluded from duration-based features but may count toward attendance). -/
structure AttendanceRecord where
  day : Int
  workedMinutes : Nat
  overtimeMinutes : Nat
  onTime : Bool
  descriptionLength : Nat
  hasClockOut : Bool
deriving DecidableEq, Repr

/-- Modelled from the spec: the fixed-order FeatureVector of §3 (missing
backend feature extractor output). -/
structure FeatureVector where
  total_work_hours : ℚ
  attendance_rate : ℚ
  punctuality_score : ℚ
  consistency_score : ℚ
  productivity_score : ℚ
  overtime_ratio : ℚ
  average_daily_hours : ℚ
deriving DecidableEq, Repr

/-- Modelled from the spec: the extractor's failure signal (§4.1, §7). -/
inductive ExtractError where
  | InsufficientData
deriving DecidableEq, Repr

/-- Clamp a score into `[0, 100]` (§3: "clamped to [0,100]"). -/
def qclamp (x : ℚ) : ℚ := max 0 (min 100 x)

/-- The records usable for duration-based features: those with a clock-out
(§4.1). -/
def completedRecords (records : List AttendanceRecord) : List AttendanceRecord :=
  records.filter (·.hasClockOut)

/-- The distinct days carrying any record (missing clock-out still counts
toward attendance, §4.1). -/
def presentDays (records : List AttendanceRecord) : List Int :=
  distinctsIn (records.map (·.day))

/-- The distinct days carrying a completed record: the day-level series the
consistency score is computed over (§4.1 groups records by date first). -/
def workedDays (records : List AttendanceRecord) : List Int :=
  distinctsIn ((completedRecords records).map (·.day))

/-- Worked minutes summed per day (§4.1: sum days with multiple records
before the day-level series). -/
def dayMinutes (records : List AttendanceRecord) (d : Int) : Nat :=
  (((completedRecords records).filter fun r => r.day = d).map (·.workedMinutes)).sum

/-- Modelled from the spec: `total_work_hours`, sum of worked minutes / 60
(§3). -/
def totalWorkHours (records : List AttendanceRecord) : ℚ :=
  (((completedRecords records).map (·.workedMinutes)).sum : ℚ) / 60

/-- Modelled from the spec: `attendance_rate` (§3, §4.1) — the fraction of
expected working days that carry a qualifying record, on the 0–100 scale,
returning 0 when the expected-day denominator is zero (§4.1 numeric
stability). -/
def attendanceRate (expectedDays : List Int) (records : List AttendanceRecord) : ℚ :=
  if expectedDays.length = 0 then 0
  else 100 * ((expectedDays.filter fun d => d ∈ presentDays records).length : ℚ)
    / expectedDays.length

/-- Modelled from the spec: `punctuality_score` (§3) — the fraction of
present days with an on-time clock-in, mapped to [0,100], 0 when no days. -/
def punctualityScore (records : List AttendanceRecord) : ℚ :=
  if (presentDays records).length = 0 then 0
  else 100 * (((presentDays records).filter fun d =>
      records.any fun r => r.day == d && r.onTime).length : ℚ)
    / (presentDays records).length

/-- The per-day worked-hours series (§4.1). -/
def dailyHours (records : List AttendanceRecord) : List ℚ :=
  (workedDays records).map fun d => (dayMinutes records d : ℚ) / 60

/-- Modelled from the spec: `consistency_score` (§3) — an inverse measure of
the variation of daily worked hours clamped to [0,100]; with rational
arithmetic the squared coefficient of variation (variance over squared
mean) stands in for the coefficient of variation, and the division-by-zero
guards of §4.1 return 0. -/
def consistencyScore (records : List AttendanceRecord) : ℚ :=
  if (dailyHours records).length = 0 then 0
  else
    let mean := (dailyHours records).sum / (dailyHours records).length
    if mean = 0 then 0
    else
      qclamp (100 * (1 - ((dailyHours records).map fun x => (x - mean) ^ 2).sum
        / (dailyHours records).length / (mean * mean)))

/-- Modelled from the spec: `productivity_score` (§3) — a heuristic from the
work-description length and worked hours, clamped to [0,100]; the exact
weights are implementation policy (§9 open question). -/
def productivityScore (records : List AttendanceRecord) : ℚ :=
  if records.length = 0 then 0
  else
    qclamp (min 50 (((records.map (·.descriptionLength)).sum : ℚ) / records.length / 4)
      + min 50 (totalWorkHours records / 4))

/-- Modelled from the spec: the Feature Extractor (§4.1, missing backend) —
given the window's expected working days and one employee's approved
records, signal `InsufficientData` on zero qualifying records, otherwise
produce the FeatureVector. -/
def extractFeatures (expectedDays : List Int) (records : List AttendanceRecord) :
    Except ExtractError FeatureVector :=
  if records.isEmpty then .error .InsufficientData
  else
    .ok
      { total_work_hours := totalWorkHours records
        attendance_rate := attendanceRate expectedDays records
        punctuality_score := punctualityScore records
        consistency_score := consistencyScore records
        productivity_score := productivityScore records
        overtime_ratio :=
          if ((completedRecords records).map (·.workedMinutes)).sum = 0 then 0
          else min 1 ((((completedRecords records).map (·.overtimeMinutes)).sum : ℚ)
            / (((completedRecords records).map (·.workedMinutes)).sum : ℚ))
        average_daily_hours :=
          if (workedDays records).length = 0 then 0
          else totalWorkHours records / (workedDays records).length }

theorem qclamp_nonneg (x : ℚ) : 0 ≤ qclamp x := le_max_left 0 _

theorem qclamp_le_hundred (x : ℚ) : qclamp x ≤ 100 :=
  max_le (by norm_num) (min_le_left 100 x)

theorem pct_le_hundred (a b : ℕ) (hab : a ≤ b) :
    0 ≤ 100 * (a : ℚ) / b ∧ 100 * (a : ℚ) / b ≤ 100 := by
  constructor
  · positivity
  · rcases Nat.eq_zero_or_pos b with hb | hb
    · subst hb
      interval_cases a
      norm_num
    · have hbq : (0 : ℚ) < b := by exact_mod_cast hb
      rw [div_le_iff₀ hbq]
      have haq : (a : ℚ) ≤ b := by exact_mod_cast hab
      nlinarith

theorem attendanceRate_bounds (expectedDays : List Int)
    (records : List AttendanceRecord) :
    0 ≤ attendanceRate expectedDays records
      ∧ attendanceRate expectedDays records ≤ 100 := by
  rw [attendanceRate]
  split
  · norm_num
  · exact pct_le_hundred _ _ (List.length_filter_le _ _)

theorem punctualityScore_bounds (records : List AttendanceRecord) :
    0 ≤ punctualityScore records ∧ punctualityScore records ≤ 100 := by
  rw [punctualityScore]
  split
  · norm_num
  · exact pct_le_hundred _ _ (List.length_filter_le _ _)

theorem consistencyScore_bounds (records : List AttendanceRecord) :
    0 ≤ consistencyScore records ∧ consistencyScore records ≤ 100 := by
  rw [consistencyScore]
  split
  · norm_num
  · dsimp only
    split
    · norm_num
    · exact ⟨qclamp_nonneg _, qclamp_le_hundred _⟩

theorem productivityScore_bounds (records : List AttendanceRecord) :
    0 ≤ productivityScore records ∧ productivityScore records ≤ 100 := by
  rw [productivityScore]
  split
  · norm_num
  · exact ⟨qclamp_nonneg _, qclamp_le_hundred _⟩

/-- Claim C4 (the backend feature extractor, modelled from the spec): for
every attendance window and record set, an extracted FeatureVector has
`attendance_rate`, `punctuality_score`, `consistency_score` and
`productivity_score` all within [0, 100] — never negative, never
unbounded. -/
theorem extracted_scores_bounded (expectedDays : List Int)
    (records : List AttendanceRecord) (fv : FeatureVector)
    (h : extractFeatures expectedDays records = .ok fv) :
    (0 ≤ fv.attendance_rate ∧ fv.attendance_rate ≤ 100) ∧
    (0 ≤ fv.punctuality_score ∧ fv.punctuality_score ≤ 100) ∧
    (0 ≤ fv.consistency_score ∧ fv.consistency_score ≤ 100) ∧
    (0 ≤ fv.productivity_score ∧ fv.productivity_score ≤ 100) := by
  rw [extractFeatures] at h
  split at h
  · exact absurd h (by simp)
  · injection h with h
    subst h
    exact ⟨attendanceRate_bounds expectedDays records,
      punctualityScore_bounds records, consistencyScore_bounds records,
      productivityScore_bounds records⟩

/-- Witness records for the C4 statement: one full 8-hour on-time day. -/
def wRecords : List AttendanceRecord :=
  [{ day := 0, workedMinutes := 480, overtimeMinutes := 0, onTime := true,
     descriptionLength := 20, hasClockOut := true }]

/-- Witness for C4 at a concrete one-record window. -/
theorem extracted_scores_bounded_witness :
    ∃ fv, extractFeatures [0] wRecords = .ok fv ∧
      ((0 ≤ fv.attendance_rate ∧ fv.attendance_rate ≤ 100) ∧
        (0 ≤ fv.punctuality_score ∧ fv.punctuality_score ≤ 100) ∧
        (0 ≤ fv.consistency_score ∧ fv.consistency_score ≤ 100) ∧
        (0 ≤ fv.productivity_score ∧ fv.productivity_score ≤ 100)) :=
  ⟨_, rfl, extracted_scores_bounded [0] wRecords _ rfl⟩

/-- Modelled from the spec: the fit/predict error taxonomy relevant to the
Dataset Builder and Clustering Model (§4.2, §4.3, §7; missing backend). -/
inductive FitError where
  | EmptyDataset
  | InvalidConfiguration
deriving DecidableEq, Repr

/-- Modelled from the spec: the fixed, versioned feature order of §3
applied to one FeatureVector (missing backend dataset builder row). -/
def featureRow (fv : FeatureVector) : List ℚ :=
  [fv.total_work_hours, fv.attendance_rate, fv.punctuality_score,
   fv.consistency_score, fv.productivity_score, fv.overtime_ratio,
   fv.average_daily_hours]

/-- Modelled from the spec: the Feature Dataset Builder (§4.2, missing
backend) — run the extractor over every employee, keep the successful rows
with their identity metadata, and report the employees skipped for
`InsufficientData`. -/
def buildDataset (expectedDays : List Int)
    (employees : List (String × List AttendanceRecord)) :
    List (String × FeatureVector) × List String :=
  (employees.filterMap fun p =>
    match extractFeatures expectedDays p.2 with
    | .ok fv => some (p.1, fv)
    | .error _ => none,
   employees.filterMap fun p =>
    match extractFeatures expectedDays p.2 with
    | .ok _ => none
    | .error _ => some p.1)

/-- Squared Euclidean distance between two feature rows. -/
def sqDist (a b : List ℚ) : ℚ := (List.zipWith (fun x y => (x - y) ^ 2) a b).sum

/-- Index tracking for `nearest`: fold over the remaining centers keeping
the best (first-on-ties, per §4.3 deterministic tie-breaking) index. -/
def nearestAux (row : List ℚ) : List (List ℚ) → Nat → ℚ → Nat → Nat
  | [], _, _, best => best
  | c :: cs, i, bestD, best =>
      if sqDist row c < bestD then nearestAux row cs (i + 1) (sqDist row c) i
      else nearestAux row cs (i + 1) bestD best

/-- The index of the nearest cluster center by Euclidean distance (§4.3
assignment step). -/
def nearest (centers : List (List ℚ)) (row : List ℚ) : Nat :=
  match centers with
  | [] => 0
  | c :: cs => nearestAux row cs 1 (sqDist row c) 0

/-- Mean of column `j` over a row matrix (0 for an empty matrix, §4.1-style
division guard). -/
def colMean (rows : List (List ℚ)) (j : Nat) : ℚ :=
  if rows.length = 0 then 0
  else (rows.map fun r => r.getD j 0).sum / rows.length

/-- Variance of column `j` over a row matrix. -/
def colVar (rows : List (List ℚ)) (j : Nat) : ℚ :=
  if rows.length = 0 then 0
  else (rows.map fun r => (r.getD j 0 - colMean rows j) ^ 2).sum / rows.length

/-- Modelled from the spec: per-column normalization before clustering
(§4.3 zero mean / unit variance; missing backend). With rational arithmetic
the column scale is the variance — a computable surrogate for the standard
deviation — and a constant (zero-variance) column maps to 0, matching the
spec's division-by-zero guards. -/
def normalizeRows (dim : Nat) (rows : List (List ℚ)) : List (List ℚ) :=
  rows.map fun r =>
    (List.range dim).map fun j =>
      if colVar rows j = 0 then 0
      else (r.getD j 0 - colMean rows j) / colVar rows j

/-- One K-Means centroid-update step (§4.3): each cluster center becomes the
mean of its assigned rows; a cluster left without members keeps its center. -/
def updateCenters (dim k : Nat) (rows : List (List ℚ))
    (centers : List (List ℚ)) : List (List ℚ) :=
  (List.range k).map fun c =>
    if ((rows.filter fun r => nearest centers r = c).length : Nat) = 0 then
      centers.getD c (List.replicate dim 0)
    else
      (List.range dim).map fun j =>
        ((rows.filter fun r => nearest centers r = c).map fun r => r.getD j 0).sum
          / ((rows.filter fun r => nearest centers r = c).length : ℚ)

/-- Modelled from the spec: the bounded iterative centroid refinement of
§4.3 (missing backend): repeat assignment + update until a fixed point or
the fuel runs out (fits are bounded, §5). -/
def kmeansIter (dim k : Nat) (rows : List (List ℚ)) :
    Nat → List (List ℚ) → List (List ℚ)
  | 0, centers => centers
  | fuel + 1, centers =>
      if updateCenters dim k rows centers = centers then centers
      else kmeansIter dim k rows fuel (updateCenters dim k rows centers)

/-- The data a successful fit returns (§6 `fitAndCluster`): cluster centers
plus per-employee assignments. -/
structure FitResult where
  centers : List (List ℚ)
  assignments : List (String × Nat)
deriving DecidableEq, Repr

/-- Modelled from the spec: the fit operation over a dataset (§4.2, §4.3,
§7; missing backend). Reject `n_clusters < 1` (`InvalidConfiguration`),
build the dataset skipping `InsufficientData` employees, fail with
`EmptyDataset` when fewer than `n_clusters` usable employees remain
(K-Means requires at least as many samples as clusters), and otherwise run
the deterministic, first-k-rows-seeded iterative K-Means over the
normalized 7-column matrix. The spec's multiple random initializations and
silhouette quality score do not affect fit success or failure and are
outside the claims settled here. -/
def fitDataset (expectedDays : List Int)
    (employees : List (String × List AttendanceRecord)) (nClusters : Nat) :
    Except FitError FitResult :=
  if nClusters < 1 then .error .InvalidConfiguration
  else if (buildDataset expectedDays employees).1.length < nClusters then
    .error .EmptyDataset
  else
    .ok
      { centers :=
          kmeansIter 7 nClusters
            (normalizeRows 7
              (((buildDataset expectedDays employees).1.map fun p => featureRow p.2)))
            100
            ((normalizeRows 7
              (((buildDataset expectedDays employees).1.map fun p =>
                featureRow p.2))).take nClusters)
        assignments :=
          ((buildDataset expectedDays employees).1.map fun p => p.1).zip
            ((normalizeRows 7
              (((buildDataset expectedDays employees).1.map fun p =>
                featureRow p.2))).map
              (nearest
                (kmeansIter 7 nClusters
                  (normalizeRows 7
                    (((buildDataset expectedDays employees).1.map fun p =>
                      featureRow p.2)))
                  100
                  ((normalizeRows 7
                    (((buildDataset expectedDays employees).1.map fun p =>
                      featureRow p.2))).take nClusters)))) }

/-- Claim C3 (the backend fit, modelled from the spec): over any dataset,
if fewer than `n_clusters` employees remain after skipping the ones flagged
`InsufficientData`, the fit fails with `EmptyDataset`; if exactly
`n_clusters` employees remain, the fit still succeeds (the degenerate
one-employee-per-cluster case). -/
theorem fit_boundary_empty_dataset (expectedDays : List Int)
    (employees : List (String × List AttendanceRecord)) (k : Nat)
    (hk : 1 ≤ k) :
    ((buildDataset expectedDays employees).1.length < k →
      fitDataset expectedDays employees k = .error .EmptyDataset) ∧
    ((buildDataset expectedDays employees).1.length = k →
      (fitDataset expectedDays employees k).isOk = true) := by
  have hnot : ¬ k < 1 := by omega
  constructor
  · intro hlt
    rw [fitDataset, if_neg hnot, if_pos hlt]
  · intro heq
    have hge : ¬ (buildDataset expectedDays employees).1.length < k := by omega
    rw [fitDataset, if_neg hnot, if_neg hge]
    rfl

/-- Witness employee batch for the C3 statement: two employees with usable
records and one with no records at all (skipped as `InsufficientData`). -/
def wEmployees : List (String × List AttendanceRecord) :=
  [("e1", [{ day := 0, workedMinutes := 480, overtimeMinutes := 0,
             onTime := true, descriptionLength := 10, hasClockOut := true }]),
   ("e2", [{ day := 0, workedMinutes := 240, overtimeMinutes := 30,
             onTime := false, descriptionLength := 0, hasClockOut := true }]),
   ("e3", [])]

/-- Witness for C3: with two usable employees, fitting `k = 2` (exactly as
many employees as clusters) succeeds and fitting `k = 3` fails with
`EmptyDataset`. -/
theorem fit_boundary_empty_dataset_witness :
    (fitDataset [0] wEmployees 2).isOk = true ∧
    fitDataset [0] wEmployees 3 = .error .EmptyDataset := by
  constructor
  · exact (fit_boundary_empty_dataset [0] wEmployees 2 (by norm_num)).2 (by decide)
  · exact (fit_boundary_empty_dataset [0] wEmployees 3 (by norm_num)).1 (by decide)

end FeliyaAnalytics
